import Mathlib

/-
  Verification development for the smart-ticket-manager repository.

  The embedding covers:
  * the `analyze-ticket` edge function (subcategory/category routing overrides
    and the degraded fallback decision), from supabase/functions/analyze-ticket/index.ts;
  * the priority-merge step of the ticket submission flow, from src/pages/ticket-new.tsx;
  * the MomenceAPI client (token lifecycle, 401 retry, credential guards,
    membership status, session pagination, location lookup), from the
    MomenceAPI service module.

  JavaScript-specific behaviours (string falsiness, `||` defaulting,
  `undefined` comparisons) are modelled by explicit helper functions.
-/

/-- JS truthiness test for an optional string field: `undefined` and `""` are falsy. -/
def jsFalsyOptStr : Option String → Bool
  | none => true
  | some s => s = ""

/-- JS `a || b` on optional string values: `a` wins unless it is falsy. -/
def jsOrStr (a b : Option String) : Option String :=
  match a with
  | none => b
  | some s => if s = "" then b else some s

/-- JS `x < c` where `x` may be `undefined`: a comparison against `undefined`
is `NaN < c`, which is false. -/
def jsLtOpt (x : Option ℚ) (c : ℚ) : Bool :=
  match x with
  | none => false
  | some q => decide (q < c)

/-! ## analyze-ticket edge function (supabase/functions/analyze-ticket/index.ts) -/

/-- The structured classifier output / routing decision shape. Fields that the
handler reads with JS truthiness/undefined semantics are `Option`-typed. -/
structure AIResp where
  department : Option String
  priority : Option String
  suggestedTags : List String
  needsEscalation : Bool
  escalationReason : Option String
  routingConfidence : Option ℚ
  analysis : String
deriving DecidableEq

/-- A subcategory routing override entry: `{ department, priority? }`. -/
structure SubOverride where
  department : String
  priority : Option String
deriving DecidableEq

/-- `SUBCATEGORY_ROUTING` table from the source (insertion order preserved). -/
def SUBCATEGORY_ROUTING : List (String × SubOverride) :=
  [ ("Payment Processing", ⟨"Finance", some "high"⟩)
  , ("Injury During Class", ⟨"HR", some "critical"⟩)
  , ("Medical Disclosure", ⟨"HR", some "high"⟩)
  , ("Theft", ⟨"Security", some "critical"⟩)
  , ("Emergency", ⟨"Management", some "critical"⟩)
  , ("Staff Misconduct", ⟨"HR", some "high"⟩)
  , ("Discrimination", ⟨"HR", some "high"⟩) ]

/-- A category routing entry: `{ department, teamCode }`. -/
structure CatRoute where
  department : String
  teamCode : String
deriving DecidableEq

/-- `CATEGORY_ROUTING` table from the source. -/
def CATEGORY_ROUTING : List (String × CatRoute) :=
  [ ("Booking & Technology", ⟨"IT/Tech Support", "operations"⟩)
  , ("Customer Service", ⟨"Client Success", "client-success"⟩)
  , ("Health & Safety", ⟨"Operations", "facilities"⟩)
  , ("Retail Management", ⟨"Sales", "sales"⟩)
  , ("Community & Culture", ⟨"HR", "operations"⟩)
  , ("Sales & Marketing", ⟨"Sales", "sales"⟩)
  , ("Special Programs", ⟨"Operations", "operations"⟩)
  , ("Miscellaneous", ⟨"Operations", "operations"⟩)
  , ("Global", ⟨"Management", "management"⟩) ]

/-- `subcategory && SUBCATEGORY_ROUTING[subcategory]`: the subcategory must be
truthy and present as a key of the table. -/
def subOverride (subcategory : Option String) : Option SubOverride :=
  match subcategory with
  | none => none
  | some s =>
      if s = "" then none
      else (SUBCATEGORY_ROUTING.find? (fun kv => kv.1 = s)).map (fun kv => kv.2)

/-- `category && CATEGORY_ROUTING[category]`: the category must be truthy and
present as a key of the table; the routing logic only uses the department. -/
def categoryDefault (category : Option String) : Option String :=
  match category with
  | none => none
  | some c =>
      if c = "" then none
      else (CATEGORY_ROUTING.find? (fun kv => kv.1 = c)).map (fun kv => kv.2.department)

/-- The override application of the handler: first the subcategory override
(`if (override.department) ...; if (override.priority) ...`), then the category
default (`if (!aiResponse.department || aiResponse.routingConfidence < 0.7)`). -/
def applyOverrides (ai : AIResp) (category subcategory : Option String) : AIResp :=
  let ai1 :=
    match subOverride subcategory with
    | none => ai
    | some o =>
        let a := if o.department ≠ "" then { ai with department := some o.department } else ai
        match o.priority with
        | none => a
        | some p => if p ≠ "" then { a with priority := some p } else a
  match categoryDefault category with
  | none => ai1
  | some cdep =>
      if jsFalsyOptStr ai1.department || jsLtOpt ai1.routingConfidence (mkRat 7 10) then
        { ai1 with department := some cdep }
      else ai1

/-- The fixed fallback decision returned by the catch branch. -/
def fallbackDecision : AIResp :=
  { department := some "Operations"
  , priority := some "medium"
  , suggestedTags := []
  , needsEscalation := false
  , escalationReason := none
  , routingConfidence := some 0
  , analysis := "Auto-routing failed, using default assignment" }

/-- The handler's HTTP response: status code, optional `error` field, and the
routing-decision body. -/
structure HandlerOut where
  status : Nat
  error : Option String
  decision : AIResp
deriving DecidableEq

/-- The `serve` handler of analyze-ticket. Everything inside the `try` block up
to and including parsing of the classifier output (missing API key, network
failure, non-ok status, malformed JSON) is summarised by an
`Except String AIResp`: `.error msg` is any thrown error, `.ok ai` is a parsed
classifier output. On success the handler applies the overrides and responds
200; on any error it responds 200 with the fixed fallback body. -/
def analyzeTicket (classify : Except String AIResp)
    (category subcategory : Option String) : HandlerOut :=
  match classify with
  | .ok ai => { status := 200, error := none, decision := applyOverrides ai category subcategory }
  | .error e => { status := 200, error := some e, decision := fallbackDecision }

/-! ## Priority merge in the ticket submission flow (src/pages/ticket-new.tsx) -/

/-- `const priorityOrder = ['low', 'medium', 'high', 'critical']`. -/
def priorityOrder : List String := ["low", "medium", "high", "critical"]

/-- JS `Array.prototype.indexOf`: index of the first occurrence, `-1` if absent. -/
def jsIndexOf (l : List String) (s : String) : Int :=
  match l with
  | [] => -1
  | x :: xs => if x = s then 0 else
      match jsIndexOf xs s with
      | -1 => -1
      | i => i + 1

/-- The priority-merge step of `onSubmit`:
`if (aiRouting.priority && priorityOrder.indexOf(aiRouting.priority) >
priorityOrder.indexOf(data.priority)) data.priority = aiRouting.priority`. -/
def finalPriority (userPriority : String) (aiPriority : Option String) : String :=
  match aiPriority with
  | none => userPriority
  | some p =>
      if p = "" then userPriority
      else if jsIndexOf priorityOrder p > jsIndexOf priorityOrder userPriority then p
      else userPriority

/-! ## MomenceAPI: membership status (getMembershipStatus) -/

/-- The parts of an active-membership record read by `getMembershipStatus`:
the frozen flag and the optional end date. Dates are epoch milliseconds; a
falsy/absent `endDate` is `none`. -/
structure MembershipRec where
  isFrozen : Bool
  endDate : Option Int
deriving DecidableEq

/-- `getMembershipStatus(membership)` with the current time passed explicitly:
no membership gives `inactive`; a frozen membership gives `frozen`; a present
end date strictly in the past gives `expired`; otherwise `active`. -/
def getMembershipStatus (now : Int) (membership : Option MembershipRec) : String :=
  match membership with
  | none => "inactive"
  | some m =>
      if m.isFrozen then "frozen"
      else
        match m.endDate with
        | some e => if e < now then "expired" else "active"
        | none => "active"

/-- `getActivityLevel(totalVisits)` from the same normalizer. -/
def getActivityLevel (totalVisits : Nat) : String :=
  if totalVisits = 0 then "new"
  else if totalVisits ≤ 5 then "beginner"
  else if totalVisits ≤ 20 then "regular"
  else if totalVisits ≤ 50 then "frequent"
  else "vip"

/-! ## MomenceAPI: token lifecycle and client operations -/

/-- A parsed body of the auth endpoint: `access_token` plus the refresh token
under either of two field names, each possibly absent. -/
structure AuthBody where
  access_token : String
  refresh_token : Option String
  refreshToken : Option String
deriving DecidableEq

/-- The MomenceAPI instance fields. `refreshToken` is `Option`-typed because
assigning an absent response field stores `undefined` in it. -/
structure ApiState where
  accessToken : String
  refreshToken : Option String
  authToken : String
  username : String
  password : String
deriving DecidableEq

/-- The token-store assignment of `authenticate()`:
`this.accessToken = data.access_token; this.refreshToken = data.refresh_token || data.refreshToken`. -/
def applyAuthResponse (st : ApiState) (b : AuthBody) : ApiState :=
  { st with accessToken := b.access_token
          , refreshToken := jsOrStr b.refresh_token b.refreshToken }

/-- The token-store assignment of `refreshAccessToken()`:
`this.accessToken = data.access_token; this.refreshToken = data.refreshToken`. -/
def applyRefreshResponse (st : ApiState) (b : AuthBody) : ApiState :=
  { st with accessToken := b.access_token
          , refreshToken := b.refreshToken }

/-- `!this.authToken || !this.username || !this.password` (JS string falsiness). -/
def credsMissing (st : ApiState) : Bool :=
  st.authToken = "" || st.username = "" || st.password = ""

/-- Outcome of one data-endpoint fetch, as observed by the client code:
a 401 status, an ok response with a parsed body, any other non-ok status, or a
thrown network error. -/
inductive DataResp (α : Type) where
  | status401 : DataResp α
  | ok : α → DataResp α
  | errStatus : DataResp α
  | netThrow : DataResp α
deriving DecidableEq

/-- The external world of one run: the nth auth-endpoint body for password
grants (`none` = non-ok status or thrown error), the nth body for refresh
grants, and the nth data-endpoint response for the operation under study. -/
structure Env (α : Type) where
  authBodies : Nat → Option AuthBody
  refreshBodies : Nat → Option AuthBody
  dataResponses : Nat → DataResp α

/-- Mutable run state threaded through an operation: the token store plus
counters of auth calls, refresh calls, data calls and total network calls. -/
structure RunSt where
  api : ApiState
  authIdx : Nat
  refreshIdx : Nat
  dataIdx : Nat
  networkCalls : Nat
deriving DecidableEq

/-- `authenticate()`: with missing credentials it fails without a network
call; otherwise it performs the password-grant call, and on an ok response
stores the tokens. -/
def authenticateF (authBodies : Nat → Option AuthBody) (st : RunSt) : Bool × RunSt :=
  if credsMissing st.api then (false, st)
  else
    let st1 := { st with authIdx := st.authIdx + 1, networkCalls := st.networkCalls + 1 }
    match authBodies st.authIdx with
    | none => (false, st1)
    | some b => (true, { st1 with api := applyAuthResponse st1.api b })

/-- `refreshAccessToken()`: performs the refresh-token grant unconditionally
(no credential guard), and on an ok response stores the tokens. -/
def refreshAccessTokenF (refreshBodies : Nat → Option AuthBody) (st : RunSt) : Bool × RunSt :=
  let st1 := { st with refreshIdx := st.refreshIdx + 1, networkCalls := st.networkCalls + 1 }
  match refreshBodies st.refreshIdx with
  | none => (false, st1)
  | some b => (true, { st1 with api := applyRefreshResponse st1.api b })

/-- Advance the run state past one data-endpoint fetch. -/
def bumpData (st : RunSt) : RunSt :=
  { st with dataIdx := st.dataIdx + 1, networkCalls := st.networkCalls + 1 }

/-- `searchCustomers(query)`. The wire body is the optional `payload` array;
the result is `data.payload || []`. `fuel` bounds the modelled recursion depth:
`none` means the recursion did not terminate within `fuel` self-calls. -/
def searchCustomersF (env : Env (Option (List Nat))) (query : String) :
    Nat → RunSt → Option (List Nat × RunSt)
  | 0, _ => none
  | fuel + 1, st =>
      if credsMissing st.api then some ([], st)
      else
        let auth := if st.api.accessToken = "" then authenticateF env.authBodies st else (true, st)
        if auth.1 = false then some ([], auth.2)
        else
          let st1 := auth.2
          let st2 := bumpData st1
          match env.dataResponses st1.dataIdx with
          | .status401 =>
              let refr := refreshAccessTokenF env.refreshBodies st2
              if refr.1 then searchCustomersF env query fuel refr.2
              else some ([], refr.2)
          | .ok body => some (body.getD [], st2)
          | .errStatus => some ([], st2)
          | .netThrow => some ([], st2)

/-- `getCustomerBookings(memberId)`. No credential guard; the result of
`authenticate()` and of `refreshAccessToken()` is ignored; a non-ok non-401
response throws into the catch, which returns `[]`. -/
def getCustomerBookingsF (env : Env (Option (List Nat))) (memberId : String) :
    Nat → RunSt → Option (List Nat × RunSt)
  | 0, _ => none
  | fuel + 1, st =>
      let st1 := if st.api.accessToken = "" then (authenticateF env.authBodies st).2 else st
      let st2 := bumpData st1
      match env.dataResponses st1.dataIdx with
      | .status401 =>
          let refr := refreshAccessTokenF env.refreshBodies st2
          getCustomerBookingsF env memberId fuel refr.2
      | .ok body => some (body.getD [], st2)
      | .errStatus => some ([], st2)
      | .netThrow => some ([], st2)

/-- The combined record built by `getCustomerById`: the member body together
with the `sessions` and `activeMemberships` payloads. -/
structure CustomerData where
  member : Nat
  sessions : List Nat
  activeMemberships : List Nat
deriving DecidableEq

/-- The three data fetches of `getCustomerById`, drawn from separate streams
but sharing the data-call counter. -/
structure CustEnv where
  authBodies : Nat → Option AuthBody
  refreshBodies : Nat → Option AuthBody
  memberResponses : Nat → DataResp Nat
  sessionsResponses : Nat → DataResp (Option (List Nat))
  membershipsResponses : Nat → DataResp (Option (List Nat))

/-- `getCustomerById(memberId)`. No credential guard; `authenticate()` and
`refreshAccessToken()` results are ignored; a 401 on the member fetch retries
unconditionally; a non-ok member fetch throws into the catch (result `null`);
the sessions and memberships fetches fall back to `{payload: []}` on a non-ok
status but a thrown network error propagates to the catch. -/
def getCustomerByIdF (env : CustEnv) (memberId : String) :
    Nat → RunSt → Option (Option CustomerData × RunSt)
  | 0, _ => none
  | fuel + 1, st =>
      let st1 := if st.api.accessToken = "" then (authenticateF env.authBodies st).2 else st
      let st2 := bumpData st1
      match env.memberResponses st1.dataIdx with
      | .status401 =>
          let refr := refreshAccessTokenF env.refreshBodies st2
          getCustomerByIdF env memberId fuel refr.2
      | .errStatus => some (none, st2)
      | .netThrow => some (none, st2)
      | .ok memberData =>
          let st3 := bumpData st2
          match env.sessionsResponses st2.dataIdx with
          | .netThrow => some (none, st3)
          | sessResp =>
              let sessions :=
                match sessResp with
                | .ok body => body.getD []
                | _ => []
              let st4 := bumpData st3
              match env.membershipsResponses st3.dataIdx with
              | .netThrow => some (none, st4)
              | memResp =>
                  let memberships :=
                    match memResp with
                    | .ok body => body.getD []
                    | _ => []
                  some (some ⟨memberData, sessions, memberships⟩, st4)

/-- Pagination metadata of a sessions envelope; `totalCount` is optional since
the loop reads it through `pagination?.totalCount`. -/
structure Pagination where
  totalCount : Option Nat
  page : Nat
  pageSize : Nat
deriving DecidableEq

/-- A sessions-listing envelope: `{ payload, pagination }`. -/
structure SessionsEnvelope where
  payload : List Nat
  pagination : Option Pagination
deriving DecidableEq

/-- The literal empty envelope returned on every failure path of `getSessions`. -/
def emptySessionsEnvelope : SessionsEnvelope :=
  { payload := [], pagination := some { totalCount := some 0, page := 0, pageSize := 0 } }

/-- `toISOString().split('.')[0] + 'Z'`: truncation of an epoch-millisecond
instant to whole seconds. -/
def truncToSeconds (ms : Nat) : Nat := ms / 1000

/-- The `startsBefore` default of `getSessions`: `new Date()` advanced by
`setDate(getDate() + 1)` — the same time of day one calendar day later, i.e.
now plus 86,400,000 ms — then truncated to whole seconds. -/
def defaultStartsBefore (nowMs : Nat) : Nat := truncToSeconds (nowMs + 86400000)

/-- The `startsBefore` query parameter actually sent by `getSessions` (in whole
seconds): the caller-supplied bound when present, else the default. -/
def startsBeforeParam (startsBefore : Option Nat) (nowMs : Nat) : Nat :=
  match startsBefore with
  | some s => s
  | none => defaultStartsBefore nowMs

/-- `getSessions(page, pageSize, startsBefore?, locationId?)`. Credential guard
first, then the token check, then the fetch with the resolved `startsBefore`
parameter; on 401 with a successful refresh it retries with the resolved
parameter; every failure path returns the empty envelope. -/
def getSessionsF (env : Env SessionsEnvelope) (nowMs : Nat)
    (page pageSize : Nat) (startsBefore : Option Nat) (locationId : Option String) :
    Nat → RunSt → Option (SessionsEnvelope × RunSt)
  | 0, _ => none
  | fuel + 1, st =>
      if credsMissing st.api then some (emptySessionsEnvelope, st)
      else
        let auth := if st.api.accessToken = "" then authenticateF env.authBodies st else (true, st)
        if auth.1 = false then some (emptySessionsEnvelope, auth.2)
        else
          let st1 := auth.2
          let param := startsBeforeParam startsBefore nowMs
          let st2 := bumpData st1
          match env.dataResponses st1.dataIdx with
          | .status401 =>
              let refr := refreshAccessTokenF env.refreshBodies st2
              if refr.1 then getSessionsF env nowMs page pageSize (some param) locationId fuel refr.2
              else some (emptySessionsEnvelope, refr.2)
          | .ok body => some (body, st2)
          | .errStatus => some (emptySessionsEnvelope, st2)
          | .netThrow => some (emptySessionsEnvelope, st2)

/-- `getSessionById(sessionId)`. Credential guard, token check, fetch; `null`
(`none`) on every failure path. -/
def getSessionByIdF (env : Env Nat) (sessionId : String) :
    Nat → RunSt → Option (Option Nat × RunSt)
  | 0, _ => none
  | fuel + 1, st =>
      if credsMissing st.api then some (none, st)
      else
        let auth := if st.api.accessToken = "" then authenticateF env.authBodies st else (true, st)
        if auth.1 = false then some (none, auth.2)
        else
          let st1 := auth.2
          let st2 := bumpData st1
          match env.dataResponses st1.dataIdx with
          | .status401 =>
              let refr := refreshAccessTokenF env.refreshBodies st2
              if refr.1 then getSessionByIdF env sessionId fuel refr.2
              else some (none, st2)
          | .ok body => some (some body, st2)
          | .errStatus => some (none, st2)
          | .netThrow => some (none, st2)

/-! ## MomenceAPI: pagination/aggregation engine (getAllSessionsWithDetails) -/

/-- One enriched session: `{...session, detailedInfo: detailedSession}`;
`detailedInfo` is `null` when the detail fetch failed. -/
def enrichSession (detail : Nat → Option Nat) (s : Nat) : Nat × Option Nat :=
  (s, detail s)

/-- The stop test performed after a page is processed:
`response.payload.length < 200 || response.pagination?.totalCount <= (currentPage + 1) * 200`
(a comparison against `undefined` is false). -/
def pageStops (pages : Nat → SessionsEnvelope) (p : Nat) : Bool :=
  decide ((pages p).payload.length < 200) ||
    (match (pages p).pagination with
     | none => false
     | some pg =>
         match pg.totalCount with
         | none => false
         | some t => decide (t ≤ (p + 1) * 200))

/-- The `while (hasMoreData && currentPage < maxPages)` loop of
`getAllSessionsWithDetails`, with `remaining = maxPages - currentPage` as the
structural measure: an empty page contributes nothing and stops; a non-empty
page is enriched and the loop stops or continues per `pageStops`. -/
def getAllLoop (pages : Nat → SessionsEnvelope) (detail : Nat → Option Nat) :
    Nat → Nat → List (Nat × Option Nat)
  | _, 0 => []
  | p, remaining + 1 =>
      let resp := pages p
      if resp.payload.length > 0 then
        let enriched := resp.payload.map (enrichSession detail)
        if pageStops pages p then enriched
        else enriched ++ getAllLoop pages detail (p + 1) remaining
      else []

/-- `getAllSessionsWithDetails(maxPages)`, with the per-page `getSessions`
call abstracted as `pages` and the per-session `getSessionById` call abstracted
as `detail`. -/
def getAllSessionsWithDetails (pages : Nat → SessionsEnvelope)
    (detail : Nat → Option Nat) (maxPages : Nat) : List (Nat × Option Nat) :=
  getAllLoop pages detail 0 maxPages

/-- Number of pages fetched according to the specification: pages are fetched
from index 0 on, and fetching ends with the first page satisfying a stop
criterion (short page or covered total count), or when `maxPages` pages have
been fetched, whichever comes first. -/
def specFetchedPages (pages : Nat → SessionsEnvelope) (maxPages : Nat) : Nat :=
  match (List.range maxPages).find? (fun p => pageStops pages p) with
  | some q => q + 1
  | none => maxPages

/-- The aggregation result according to the specification: the concatenation,
in page order then within-page order, of the enriched sessions of every
fetched page. -/
def specAggregate (pages : Nat → SessionsEnvelope) (detail : Nat → Option Nat)
    (maxPages : Nat) : List (Nat × Option Nat) :=
  ((List.range (specFetchedPages pages maxPages)).map
    (fun p => (pages p).payload.map (enrichSession detail))).flatten

/-! ## MomenceAPI: location lookup (getLocationId) -/

/-- The fixed location lookup table (insertion order preserved). -/
def locationMap : List (String × String) :=
  [ ("Kwality House", "9030")
  , ("Supreme HQ, Bandra", "29821")
  , ("Supreme HQ Bandra", "29821")
  , ("Kwality House, Kemps Corner", "9030") ]

/-- Does `needle` start `hay`? (character-list computation behind JS
`String.prototype.includes`). -/
def startsWithChars : List Char → List Char → Bool
  | [], _ => true
  | _ :: _, [] => false
  | c :: cs, d :: ds => c = d && startsWithChars cs ds

/-- Does `needle` occur contiguously inside `hay`? -/
def containsChars (needle : List Char) : List Char → Bool
  | [] => needle.isEmpty
  | d :: ds => startsWithChars needle (d :: ds) || containsChars needle ds

/-- JS `s.toLowerCase()` as a character list. -/
def lowerChars (s : String) : List Char := s.toList.map Char.toLower

/-- The case-insensitive substring fallback of `getLocationId`: the value of
the first table key whose lowercasing occurs inside the lowercased name. -/
def locationSubstringMatch (name : String) : Option String :=
  (locationMap.find? (fun kv => containsChars (lowerChars kv.1) (lowerChars name))).map
    (fun kv => kv.2)

/-- `getLocationId(locationName?)`: a falsy name resolves to no filter; an
exact key whose mapped value is truthy resolves to that value; otherwise the
first case-insensitive substring key match; otherwise no filter. -/
def getLocationId (locationName : Option String) : Option String :=
  match locationName with
  | none => none
  | some name =>
      if name = "" then none
      else
        match locationMap.find? (fun kv => kv.1 = name) with
        | some kv => if kv.2 = "" then locationSubstringMatch name else some kv.2
        | none => locationSubstringMatch name

/-! ## Specification-side comparator and concrete evaluation fixtures -/

/-- The start of the next UTC calendar day, in whole seconds, as the
specification describes the `startsBefore` default. -/
def specStartOfNextUtcDaySec (nowMs : Nat) : Nat :=
  (nowMs / 1000 / 86400 + 1) * 86400

/-- A classifier output with a confident-looking department but confidence
below the 0.7 threshold. -/
def aiTheftExample : AIResp :=
  { department := some "Operations"
  , priority := some "low"
  , suggestedTags := []
  , needsEscalation := false
  , escalationReason := none
  , routingConfidence := some (mkRat 1 2)
  , analysis := "classifier rationale" }

/-- An environment whose first two data responses are 401 and whose refresh
grants always succeed with a fresh access token. -/
def envTwo401 : Env (Option (List Nat)) :=
  { authBodies := fun _ => none
  , refreshBodies := fun _ => some ⟨"t2", none, some "r2"⟩
  , dataResponses := fun n => if n < 2 then .status401 else .ok (some [7]) }

/-- A run state with full credentials and an access token already held. -/
def stWithToken : RunSt :=
  { api := { accessToken := "tok", refreshToken := some "r"
           , authToken := "a", username := "u", password := "p" }
  , authIdx := 0, refreshIdx := 0, dataIdx := 0, networkCalls := 0 }

/-- A run state with every credential field empty and no access token. -/
def stMissingCreds : RunSt :=
  { api := { accessToken := "", refreshToken := some ""
           , authToken := "", username := "", password := "" }
  , authIdx := 0, refreshIdx := 0, dataIdx := 0, networkCalls := 0 }

/-- An environment whose data endpoint always answers with a non-ok status. -/
def envErrList : Env (Option (List Nat)) :=
  { authBodies := fun _ => none, refreshBodies := fun _ => none
  , dataResponses := fun _ => .errStatus }

/-- As `envErrList`, for the sessions-listing endpoint. -/
def envErrSessions : Env SessionsEnvelope :=
  { authBodies := fun _ => none, refreshBodies := fun _ => none
  , dataResponses := fun _ => .errStatus }

/-- As `envErrList`, for the session-detail endpoint. -/
def envErrDetail : Env Nat :=
  { authBodies := fun _ => none, refreshBodies := fun _ => none
  , dataResponses := fun _ => .errStatus }

/-- As `envErrList`, for the three fetches of `getCustomerById`. -/
def custEnvErr : CustEnv :=
  { authBodies := fun _ => none, refreshBodies := fun _ => none
  , memberResponses := fun _ => .errStatus
  , sessionsResponses := fun _ => .errStatus
  , membershipsResponses := fun _ => .errStatus }

/-- A page source whose page 0 is short (one session, total count 10). -/
def pagesShort : Nat → SessionsEnvelope :=
  fun _ => { payload := [5], pagination := some { totalCount := some 10, page := 0, pageSize := 200 } }

/-- A detail source returning an enrichment for every session id. -/
def detailPlus100 : Nat → Option Nat := fun n => some (n + 100)

/-- Generalisation of `specFetchedPages` used to reason about the loop from an
arbitrary starting page: the number of pages fetched starting at page `p` with
`r` page fetches still allowed. -/
def fetchFromAux (pages : Nat → SessionsEnvelope) (p r : Nat) : Nat :=
  match (List.range r).find? (fun i => pageStops pages (p + i)) with
  | some i => i + 1
  | none => r

/-! ## Theorems -/

/-- C4: every failure of the external classification call is absorbed: the
handler responds HTTP 200 (indeed it responds 200 on every input), and on a
classification failure the decision equals the fixed fallback tuple
{Operations, medium, [], no escalation, confidence 0} with the explanatory
analysis string, so ticket creation always completes. -/
theorem classifier_failure_gives_200_and_fallback :
    (∀ (classify : Except String AIResp) (cat sub : Option String),
        (analyzeTicket classify cat sub).status = 200) ∧
    (∀ (e : String) (cat sub : Option String),
        analyzeTicket (Except.error e) cat sub =
          { status := 200, error := some e, decision := fallbackDecision }) ∧
    fallbackDecision.department = some "Operations" ∧
    fallbackDecision.priority = some "medium" ∧
    fallbackDecision.suggestedTags = [] ∧
    fallbackDecision.needsEscalation = false ∧
    fallbackDecision.routingConfidence = some 0 ∧
    fallbackDecision.analysis = "Auto-routing failed, using default assignment" := by
  refine ⟨?_, fun _ _ _ => rfl, rfl, rfl, rfl, rfl, rfl, rfl⟩
  intro classify cat sub
  cases classify <;> rfl

/-- C5: on the ordered scale low < medium < high < critical (positions given by
`jsIndexOf priorityOrder`), the final ticket priority is the decision's
priority exactly when it ranks strictly higher than the user's choice, and the
user's choice otherwise; the merge never downgrades the user's priority. -/
theorem finalPriority_escalates_never_downgrades :
    ∀ u d : String, u ∈ priorityOrder → d ∈ priorityOrder →
      (jsIndexOf priorityOrder d > jsIndexOf priorityOrder u →
        finalPriority u (some d) = d) ∧
      (¬ jsIndexOf priorityOrder d > jsIndexOf priorityOrder u →
        finalPriority u (some d) = u) ∧
      jsIndexOf priorityOrder (finalPriority u (some d)) ≥ jsIndexOf priorityOrder u := by
  intro u d hu hd
  fin_cases hu <;> fin_cases hd <;> exact ⟨fun h => by first | rfl | exact absurd h (by decide),
    fun h => by first | rfl | exact absurd (by decide) h, by decide⟩

/-- Witness for C5 at the spec's example: user priority medium, decision
priority critical, final priority critical. -/
theorem finalPriority_escalates_witness :
    ("medium" ∈ priorityOrder ∧ "critical" ∈ priorityOrder) ∧
    finalPriority "medium" (some "critical") = "critical" :=
  ⟨⟨by decide, by decide⟩,
    (finalPriority_escalates_never_downgrades "medium" "critical" (by decide) (by decide)).1
      (by decide)⟩

/-- C6: membership status is `inactive` without a membership, `frozen`
whenever the frozen flag is set regardless of the end date, `expired` only
for an unfrozen membership whose present end date is strictly in the past,
and `active` otherwise — in particular an absent end date never yields
`expired`. -/
theorem membershipStatus_spec :
    (∀ now : Int, getMembershipStatus now none = "inactive") ∧
    (∀ (now : Int) (e : Option Int),
        getMembershipStatus now (some ⟨true, e⟩) = "frozen") ∧
    (∀ now e : Int, e < now →
        getMembershipStatus now (some ⟨false, some e⟩) = "expired") ∧
    (∀ now e : Int, ¬ e < now →
        getMembershipStatus now (some ⟨false, some e⟩) = "active") ∧
    (∀ now : Int, getMembershipStatus now (some ⟨false, none⟩) = "active") := by
  refine ⟨fun _ => rfl, fun _ _ => rfl, ?_, ?_, fun _ => rfl⟩
  · intro now e h
    simp [getMembershipStatus, h]
  · intro now e h
    simp [getMembershipStatus, h]

/-- Witness for C6: a frozen membership with a past end date is `frozen`, an
unfrozen one with the same past end date is `expired`. -/
theorem membershipStatus_witness :
    getMembershipStatus 100 (some ⟨true, some 50⟩) = "frozen" ∧
    ((50 : Int) < 100 ∧ getMembershipStatus 100 (some ⟨false, some 50⟩) = "expired") :=
  ⟨membershipStatus_spec.2.1 100 (some 50),
    by decide, membershipStatus_spec.2.2.1 100 50 (by decide)⟩

/-- C8 counterexample: at 1970-01-01T10:30:45.123Z the default `startsBefore`
sent by `getSessions` is 10:30:45 of the next day, not the start of the next
UTC calendar day. -/
theorem startsBefore_default_counterexample :
    startsBeforeParam none 37845123 = 124245 ∧
    specStartOfNextUtcDaySec 37845123 = 86400 ∧
    startsBeforeParam none 37845123 ≠ specStartOfNextUtcDaySec 37845123 := by
  refine ⟨rfl, rfl, by decide⟩

/-- C8 (amended): when `startsBefore` is unspecified, the parameter sent equals
the current instant plus one calendar day — same second of the UTC day, day
index one higher — truncated to whole seconds, rather than the start of the
next day. -/
theorem startsBefore_default_is_next_day_same_time :
    ∀ nowMs : Nat,
      startsBeforeParam none nowMs = nowMs / 1000 + 86400 ∧
      startsBeforeParam none nowMs % 86400 = (nowMs / 1000) % 86400 ∧
      startsBeforeParam none nowMs / 86400 = nowMs / 1000 / 86400 + 1 := by
  intro n
  simp only [startsBeforeParam, defaultStartsBefore, truncToSeconds]
  refine ⟨by omega, by omega, by omega⟩

/-- C10: a refresh whose body carries the refresh token only under
`refresh_token` loses it — `refreshAccessToken` stores only the `refreshToken`
field, so the stored refresh token becomes undefined, while `authenticate`
given the same body (which accepts either field name) would store it. -/
theorem refresh_token_field_mismatch :
    ∀ (st : ApiState) (b : AuthBody) (t : String),
      b.refresh_token = some t → b.refreshToken = none → t ≠ "" →
      (applyRefreshResponse st b).refreshToken = none ∧
      (applyAuthResponse st b).refreshToken = some t := by
  intro st b t h1 h2 h3
  constructor
  · simp [applyRefreshResponse, h2]
  · simp [applyAuthResponse, jsOrStr, h1, h2, h3]

/-- Witness for C10 on a concrete body carrying only `refresh_token`. -/
theorem refresh_token_field_mismatch_witness :
    ((⟨"at2", some "r2", none⟩ : AuthBody).refresh_token = some "r2" ∧
      (⟨"at2", some "r2", none⟩ : AuthBody).refreshToken = none ∧ "r2" ≠ "") ∧
    (applyRefreshResponse stWithToken.api ⟨"at2", some "r2", none⟩).refreshToken = none ∧
    (applyAuthResponse stWithToken.api ⟨"at2", some "r2", none⟩).refreshToken = some "r2" :=
  ⟨⟨rfl, rfl, by decide⟩,
    refresh_token_field_mismatch stWithToken.api ⟨"at2", some "r2", none⟩ "r2" rfl rfl (by decide)⟩

/-- C9: location name resolution: an absent or empty name means no filter; an
exact key match returns the mapped id; failing that, the first key whose
lowercased text occurs in the lowercased name supplies the id; an unresolvable
name returns no filter (`none`) rather than an error. -/
theorem getLocationId_resolution :
    getLocationId none = none ∧
    getLocationId (some "") = none ∧
    (∀ (name : String) (kv : String × String), name ≠ "" →
        locationMap.find? (fun e => e.1 = name) = some kv →
        getLocationId (some name) = some kv.2) ∧
    (∀ name : String, name ≠ "" →
        locationMap.find? (fun e => e.1 = name) = none →
        getLocationId (some name) = locationSubstringMatch name) ∧
    (∀ name : String, name ≠ "" →
        locationMap.find? (fun e => e.1 = name) = none →
        locationSubstringMatch name = none →
        getLocationId (some name) = none) := by
  refine ⟨rfl, rfl, ?_, ?_, ?_⟩
  · intro name kv hne hfind
    have hmem := List.mem_of_find?_eq_some hfind
    have hval : kv.2 ≠ "" := by fin_cases hmem <;> decide
    simp [getLocationId, hne, hfind, hval]
  · intro name hne hfind
    simp [getLocationId, hne, hfind]
  · intro name hne hfind hsub
    simp [getLocationId, hne, hfind, hsub]

/-- Witness for C9: the exact key "Kwality House" resolves to id 9030, and the
unrecognized name "Pop Up" resolves to no filter. -/
theorem getLocationId_resolution_witness :
    (("Kwality House" : String) ≠ "" ∧
      locationMap.find? (fun e => e.1 = "Kwality House") = some ("Kwality House", "9030")) ∧
    getLocationId (some "Kwality House") = some "9030" ∧
    (("Pop Up" : String) ≠ "" ∧
      locationMap.find? (fun e => e.1 = "Pop Up") = none ∧
      locationSubstringMatch "Pop Up" = none) ∧
    getLocationId (some "Pop Up") = none :=
  ⟨⟨by decide, by decide⟩,
    getLocationId_resolution.2.2.1 "Kwality House" ("Kwality House", "9030") (by decide) (by decide),
    ⟨by decide, by decide, by decide⟩,
    getLocationId_resolution.2.2.2.2 "Pop Up" (by decide) (by decide) (by decide)⟩

/-- Any override produced by `subOverride` is one of the seven fixed table
entries. -/
theorem subOverride_mem_table (sub : Option String) (o : SubOverride)
    (h : subOverride sub = some o) :
    o ∈ SUBCATEGORY_ROUTING.map (fun kv => kv.2) := by
  rcases sub with _ | s
  · simp [subOverride] at h
  · by_cases hs : s = ""
    · simp [subOverride, hs] at h
    · simp only [subOverride, if_neg hs] at h
      obtain ⟨kv, hfind, rfl⟩ := Option.map_eq_some'.mp h
      exact List.mem_map_of_mem _ (List.mem_of_find?_eq_some hfind)

/-- C1 counterexample: for subcategory "Theft" with category "Customer Service"
and a classifier output of confidence 0.5, the final department is the category
default "Client Success", not the override's "Security" — the category-default
step runs after the subcategory override and overwrites its department
whenever confidence is below 0.7; the priority part does hold. -/
theorem subcategory_override_loses_counterexample :
    subOverride (some "Theft") = some ⟨"Security", some "critical"⟩ ∧
    (analyzeTicket (Except.ok aiTheftExample) (some "Customer Service")
        (some "Theft")).decision.department = some "Client Success" ∧
    (some "Client Success" : Option String) ≠ some "Security" ∧
    (analyzeTicket (Except.ok aiTheftExample) (some "Customer Service")
        (some "Theft")).decision.priority = some "critical" := by
  refine ⟨by decide, by decide, by decide, by decide⟩

/-- C1 (amended): when the ticket's subcategory matches an override entry, the
final priority equals the entry's priority whenever one is specified, and the
final department equals the entry's department unless the ticket's category is
also in the category table and the classifier confidence is below 0.7 (or
absent department aside, which cannot occur after the override), in which case
the category default wins. -/
theorem subcategory_override_amended :
    ∀ (ai : AIResp) (cat sub : Option String) (o : SubOverride),
      subOverride sub = some o →
      (∀ p, o.priority = some p →
          (analyzeTicket (Except.ok ai) cat sub).decision.priority = some p) ∧
      (analyzeTicket (Except.ok ai) cat sub).decision.department =
        (match categoryDefault cat with
         | none => some o.department
         | some cdep =>
             if jsLtOpt ai.routingConfidence (mkRat 7 10) then some cdep
             else some o.department) := by
  intro ai cat sub o h
  have hmem := subOverride_mem_table sub o h
  rcases hcat : categoryDefault cat with _ | cdep <;>
    fin_cases hmem <;>
      simp_all [analyzeTicket, applyOverrides, jsFalsyOptStr] <;>
        rcases hlt : jsLtOpt ai.routingConfidence (mkRat 7 10) <;> simp_all

/-- Witness for C1 (amended) at the counterexample input: the override's
priority "critical" survives, and the department follows the category default
because confidence 0.5 is below 0.7. -/
theorem subcategory_override_amended_witness :
    subOverride (some "Theft") = some ⟨"Security", some "critical"⟩ ∧
    (analyzeTicket (Except.ok aiTheftExample) (some "Customer Service")
        (some "Theft")).decision.priority = some "critical" ∧
    (analyzeTicket (Except.ok aiTheftExample) (some "Customer Service")
        (some "Theft")).decision.department =
      (match categoryDefault (some "Customer Service") with
       | none => some (⟨"Security", some "critical"⟩ : SubOverride).department
       | some cdep =>
           if jsLtOpt aiTheftExample.routingConfidence (mkRat 7 10) then some cdep
           else some (⟨"Security", some "critical"⟩ : SubOverride).department) :=
  ⟨rfl,
    (subcategory_override_amended aiTheftExample (some "Customer Service") (some "Theft")
        ⟨"Security", some "critical"⟩ rfl).1 "critical" rfl,
    (subcategory_override_amended aiTheftExample (some "Customer Service") (some "Theft")
        ⟨"Security", some "critical"⟩ rfl).2⟩

/-- C3 counterexample: with every credential field missing, `getCustomerById`
still issues the member-data network request (its `authenticate()` call
short-circuits, but its fetch is not guarded): on a non-ok response it returns
`null` after one network call, not after zero. -/
theorem getCustomerById_calls_network_without_creds :
    credsMissing stMissingCreds.api = true ∧
    (getCustomerByIdF custEnvErr "m1" 5 stMissingCreds).map
        (fun r => (r.1, r.2.networkCalls)) = some (none, 1) ∧
    (1 : Nat) ≠ 0 := by
  refine ⟨rfl, rfl, by decide⟩

/-- C3 (amended): with any credential field missing, `searchCustomers`,
`getSessions` and `getSessionById` return their documented empty values with
the run state untouched (no network call); `getCustomerBookings` (like
`getCustomerById`) is not guarded: its authentication attempt short-circuits
without a network call but the data request is still issued. -/
theorem missing_credentials_short_circuit :
    ∀ (env : Env (Option (List Nat))) (envS : Env SessionsEnvelope) (envD : Env Nat)
      (st : RunSt) (q sid mid : String) (nowMs page pageSize fuel : Nat)
      (sb : Option Nat) (loc : Option String),
      credsMissing st.api = true →
      searchCustomersF env q (fuel + 1) st = some ([], st) ∧
      getSessionsF envS nowMs page pageSize sb loc (fuel + 1) st =
        some (emptySessionsEnvelope, st) ∧
      getSessionByIdF envD sid (fuel + 1) st = some (none, st) ∧
      (st.api.accessToken = "" →
        env.dataResponses st.dataIdx = DataResp.errStatus →
        getCustomerBookingsF env mid (fuel + 1) st = some ([], bumpData st) ∧
        (bumpData st).networkCalls = st.networkCalls + 1) := by
  intro env envS envD st q sid mid nowMs page pageSize fuel sb loc h
  refine ⟨?_, ?_, ?_, ?_⟩
  · simp [searchCustomersF, h]
  · simp [getSessionsF, h]
  · simp [getSessionByIdF, h]
  · intro htok hresp
    constructor
    · simp [getCustomerBookingsF, htok, authenticateF, h, hresp]
    · rfl

/-- Witness for C3 (amended) in the all-empty credential state. -/
theorem missing_credentials_short_circuit_witness :
    credsMissing stMissingCreds.api = true ∧
    searchCustomersF envErrList "jo" (4 + 1) stMissingCreds = some ([], stMissingCreds) ∧
    getSessionsF envErrSessions 0 0 200 none none (4 + 1) stMissingCreds =
      some (emptySessionsEnvelope, stMissingCreds) ∧
    getSessionByIdF envErrDetail "s1" (4 + 1) stMissingCreds = some (none, stMissingCreds) ∧
    (stMissingCreds.api.accessToken = "" →
      envErrList.dataResponses stMissingCreds.dataIdx = DataResp.errStatus →
      getCustomerBookingsF envErrList "m1" (4 + 1) stMissingCreds =
        some ([], bumpData stMissingCreds) ∧
      (bumpData stMissingCreds).networkCalls = stMissingCreds.networkCalls + 1) :=
  ⟨rfl, missing_credentials_short_circuit envErrList envErrSessions envErrDetail
    stMissingCreds "jo" "s1" "m1" 0 0 200 4 none none rfl⟩

/-- C2 counterexample: with responses 401, 401, then success `[7]` and
always-succeeding refreshes, `searchCustomers` performs two refresh attempts
and returns the third response's payload — the second 401 does not yield the
empty value and the refresh is not attempted exactly once. -/
theorem searchCustomers_second_401_retries_again :
    (searchCustomersF envTwo401 "jo" 10 stWithToken).map
        (fun r => (r.1, r.2.refreshIdx)) = some ([7], 2) ∧
    ([7] : List Nat) ≠ [] := by
  refine ⟨rfl, by decide⟩

/-- C2 (amended): each 401 response triggers one refresh attempt; a failed
refresh returns the empty value, while a successful refresh re-runs the whole
operation with identical arguments, with no bound on the number of retries:
`k` consecutive 401 responses with successful refreshes produce exactly `k`
refresh attempts and the `(k+1)`-th response's payload, for every `k`. -/
theorem searchCustomers_unbounded_retry :
    ∀ (env : Env (Option (List Nat))) (q : String) (k : Nat) (p : List Nat)
      (fuel : Nat) (st : RunSt),
      k < fuel →
      credsMissing st.api = false →
      st.api.accessToken ≠ "" →
      (∀ i, i < k → env.dataResponses (st.dataIdx + i) = DataResp.status401) →
      (∀ i, i < k →
        ∃ b, env.refreshBodies (st.refreshIdx + i) = some b ∧ b.access_token ≠ "") →
      env.dataResponses (st.dataIdx + k) = DataResp.ok (some p) →
      ∃ st', searchCustomersF env q fuel st = some (p, st') ∧
        st'.refreshIdx = st.refreshIdx + k ∧ st'.dataIdx = st.dataIdx + k + 1 := by
  intro env q k
  induction k with
  | zero =>
      intro p fuel st hk hcred htok _ _ hok
      obtain ⟨f, rfl⟩ : ∃ f, fuel = f + 1 := ⟨fuel - 1, by omega⟩
      rw [Nat.add_zero] at hok
      refine ⟨bumpData st, ?_, by simp [bumpData], by simp [bumpData]⟩
      simp only [searchCustomersF]
      simp [hcred, htok, hok, bumpData]
  | succ k ih =>
      intro p fuel st hk hcred htok h401 hrefresh hok
      obtain ⟨f, rfl⟩ : ∃ f, fuel = f + 1 := ⟨fuel - 1, by omega⟩
      obtain ⟨b, hb, hbt⟩ := hrefresh 0 (Nat.succ_pos k)
      rw [Nat.add_zero] at hb
      have h4010 := h401 0 (Nat.succ_pos k)
      rw [Nat.add_zero] at h4010
      have step : searchCustomersF env q (f + 1) st =
          searchCustomersF env q f
            { api := applyRefreshResponse st.api b
            , authIdx := st.authIdx
            , refreshIdx := st.refreshIdx + 1
            , dataIdx := st.dataIdx + 1
            , networkCalls := st.networkCalls + 1 + 1 } := by
        simp only [searchCustomersF]
        simp [hcred, htok, h4010, refreshAccessTokenF, hb, bumpData]
      rw [step]
      obtain ⟨st', hrun, hri, hdi⟩ :=
        ih p f
          { api := applyRefreshResponse st.api b
          , authIdx := st.authIdx
          , refreshIdx := st.refreshIdx + 1
          , dataIdx := st.dataIdx + 1
          , networkCalls := st.networkCalls + 1 + 1 }
          (by omega)
          (by simpa [credsMissing, applyRefreshResponse] using hcred)
          (by simpa [applyRefreshResponse] using hbt)
          (fun i hi => by
            have := h401 (i + 1) (by omega)
            simpa [Nat.add_assoc, Nat.add_comm 1 i] using this)
          (fun i hi => by
            have := hrefresh (i + 1) (by omega)
            simpa [Nat.add_assoc, Nat.add_comm 1 i] using this)
          (by
            have : st.dataIdx + (k + 1) = st.dataIdx + 1 + k := by omega
            rw [this] at hok
            simpa using hok)
      exact ⟨st', hrun, by simp at hri; omega, by simp at hdi; omega⟩

/-- Witness for C2 (amended) at k = 2 in the two-401 environment. -/
theorem searchCustomers_unbounded_retry_witness :
    ∃ st', searchCustomersF envTwo401 "jo" 10 stWithToken = some ([7], st') ∧
      st'.refreshIdx = stWithToken.refreshIdx + 2 ∧
      st'.dataIdx = stWithToken.dataIdx + 2 + 1 :=
  searchCustomers_unbounded_retry envTwo401 "jo" 2 [7] 10 stWithToken
    (by decide) (by decide) (by decide)
    (fun i hi => by
      have h2 : i < 2 := hi
      interval_cases i <;> rfl)
    (fun i hi => ⟨⟨"t2", none, some "r2"⟩, rfl, by decide⟩)
    rfl

/-- A page satisfying a stop criterion is the last page fetched. -/
theorem fetchFromAux_stop (pages : Nat → SessionsEnvelope) (p r : Nat)
    (h : pageStops pages p = true) : fetchFromAux pages p (r + 1) = 1 := by
  unfold fetchFromAux
  rw [List.range_succ_eq_map, List.find?_cons_of_pos _ (by simpa using h)]

/-- A page satisfying no stop criterion shifts the fetch count by one. -/
theorem fetchFromAux_continue (pages : Nat → SessionsEnvelope) (p r : Nat)
    (h : pageStops pages p = false) :
    fetchFromAux pages p (r + 1) = fetchFromAux pages (p + 1) r + 1 := by
  unfold fetchFromAux
  rw [List.range_succ_eq_map, List.find?_cons_of_neg _ (by simp [h]), List.find?_map]
  have hcong : ((fun i => pageStops pages (p + i)) ∘ Nat.succ) =
      (fun i => pageStops pages (p + 1 + i)) := by
    funext i
    simp only [Function.comp]
    congr 1
    omega
  rw [hcong]
  cases hfind : (List.range r).find? (fun i => pageStops pages (p + 1 + i)) with
  | none => simp
  | some i => simp

/-- The aggregation loop from any starting page returns the concatenation of
the enriched payloads of exactly the pages the specification says are
fetched. -/
theorem getAllLoop_eq (pages : Nat → SessionsEnvelope) (detail : Nat → Option Nat) :
    ∀ r p, getAllLoop pages detail p r =
      ((List.range (fetchFromAux pages p r)).map
        (fun i => (pages (p + i)).payload.map (enrichSession detail))).flatten := by
  intro r
  induction r with
  | zero => intro p; rfl
  | succ r ih =>
      intro p
      by_cases hstop : pageStops pages p = true
      · rw [fetchFromAux_stop pages p r hstop]
        by_cases hlen : (pages p).payload.length > 0
        · simp only [getAllLoop]
          simp [hlen, hstop, List.range_succ]
        · have hnil : (pages p).payload = [] := by
            cases hp : (pages p).payload with
            | nil => rfl
            | cons a l => rw [hp] at hlen; simp at hlen
          simp only [getAllLoop]
          simp [hnil]
      · have hstop' : pageStops pages p = false := by
          revert hstop
          cases pageStops pages p <;> simp
        have hlen200 : ¬ (pages p).payload.length < 200 := by
          intro hc
          rw [pageStops] at hstop'
          simp [hc] at hstop'
        have hlen : (pages p).payload.length > 0 := by omega
        rw [fetchFromAux_continue pages p r hstop']
        simp only [getAllLoop]
        rw [if_pos (by simpa using hlen), if_neg (by simp [hstop'])]
        rw [ih (p + 1)]
        rw [List.range_succ_eq_map]
        simp only [List.map_cons, List.map_map, List.flatten_cons, Nat.add_zero]
        have hcong : ((fun i => (pages (p + i)).payload.map (enrichSession detail)) ∘ Nat.succ) =
            (fun i => (pages (p + 1 + i)).payload.map (enrichSession detail)) := by
          funext i
          simp only [Function.comp]
          have harg : p + Nat.succ i = p + 1 + i := by omega
          rw [harg]
        rw [hcong]

/-- C7: for every page source and maxPages ≥ 1, `getAllSessionsWithDetails`
equals the specified aggregation: pages from 0 on are fetched until the first
page that is short (fewer than 200 rows) or whose reported total count is
covered, or until `maxPages` pages are fetched, whichever comes first, and the
result is the concatenation of the fetched pages' enriched sessions in page
order then within-page order. -/
theorem getAllSessionsWithDetails_eq_spec :
    ∀ (pages : Nat → SessionsEnvelope) (detail : Nat → Option Nat) (maxPages : Nat),
      1 ≤ maxPages →
      getAllSessionsWithDetails pages detail maxPages = specAggregate pages detail maxPages := by
  intro pages detail maxPages _
  unfold getAllSessionsWithDetails specAggregate specFetchedPages
  rw [getAllLoop_eq]
  have h1 : fetchFromAux pages 0 maxPages =
      (match (List.range maxPages).find? (fun p => pageStops pages p) with
       | some q => q + 1
       | none => maxPages) := by
    unfold fetchFromAux
    simp only [Nat.zero_add]
  rw [h1]
  simp only [Nat.zero_add]

/-- Witness for C7 on a source whose page 0 is short: one page is fetched and
its single session is enriched. -/
theorem getAllSessionsWithDetails_eq_spec_witness :
    (1 ≤ 2 ∧
      getAllSessionsWithDetails pagesShort detailPlus100 2 =
        specAggregate pagesShort detailPlus100 2) ∧
    getAllSessionsWithDetails pagesShort detailPlus100 2 = [(5, some 105)] :=
  ⟨⟨by decide, getAllSessionsWithDetails_eq_spec pagesShort detailPlus100 2 (by decide)⟩, rfl⟩
